import Mathlib

/-!
Verification of the mock streaming server's simulation core
(`src/mock_services/mock_stream_server.py`) and the streaming-validator
collaborator (`src/infra/streaming_validator.py`).

The Python code is shallowly embedded: floats become exact rationals,
the two random draws of `apply_network_effects` (`random.random()` and
`random.uniform(-jitter, jitter)`) become explicit parameters `r` and `u`,
and the module-level mutable `current_condition` becomes explicit state
passing. A `KeyError` from indexing `NETWORK_CONDITIONS` is modelled as
`Option.none`.
-/

namespace MockStreamServer

/-- Impairment parameters of one network condition: the value bundle stored
per name in the `NETWORK_CONDITIONS` dictionary of the server. -/
structure Condition where
  packet_loss : ℚ
  latency_ms : ℚ
  jitter_ms : ℚ
  description : String
deriving DecidableEq, Repr

/-- The "normal" entry of `NETWORK_CONDITIONS` (mock_stream_server.py lines 37-42). -/
def normalCondition : Condition :=
  ⟨0, 10, 5, "Normal network (stable connection)"⟩

/-- The "poor" entry of `NETWORK_CONDITIONS` (lines 43-48). -/
def poorCondition : Condition :=
  ⟨15/100, 200, 50, "Poor network (mobile 3G-like)"⟩

/-- The "terrible" entry of `NETWORK_CONDITIONS` (lines 49-54). -/
def terribleCondition : Condition :=
  ⟨15/100, 500, 150, "Terrible network (congested/unstable)"⟩

/-- The `NETWORK_CONDITIONS` dictionary (lines 36-55), as a lookup from
condition name to its `Condition`; `none` models an absent key. -/
def NETWORK_CONDITIONS (name : String) : Option Condition :=
  if name = "normal" then some normalCondition
  else if name = "poor" then some poorCondition
  else if name = "terrible" then some terribleCondition
  else none

/-- `list(NETWORK_CONDITIONS.keys())`, in the dictionary's insertion order. -/
def NETWORK_CONDITION_KEYS : List String := ["normal", "poor", "terrible"]

/-- The initial value of the module-level `current_condition` variable
(line 58): `"normal"`. -/
def initial_condition : String := "normal"

/-- Result of `apply_network_effects`: the Python function returns a
`(status_code, error_message)` tuple on simulated packet loss, or sleeps
for the computed delay and returns `None` on success. -/
inductive NetOutcome
  | fail (status : Nat) (message : String)
  | pass (delay : ℚ)
deriving DecidableEq, Repr

/-- Core of `apply_network_effects` (lines 61-95) after the snapshot of the
current condition has been taken: `r` is the `random.random()` draw in
[0,1), and `u` is the `random.uniform(-jitter, jitter)` draw, where
`jitter = jitter_ms / 1000`. -/
def apply_network_effects (endpoint_type : String) (condition : Condition)
    (r u : ℚ) : NetOutcome :=
  if r < condition.packet_loss then
    if endpoint_type = "manifest" then .fail 504 "Gateway Timeout"
    else .fail 503 "Service Unavailable"
  else
    .pass (max 0 (condition.latency_ms / 1000 + u))

/-- An HTTP response with a plain body (bytes and text both embedded as
`String`). -/
structure HttpResponse where
  status : Nat
  body : String
deriving DecidableEq, Repr

/-- `get_fake_video_segment` (lines 136-145): the constant placeholder
payload returned for every segment. -/
def get_fake_video_segment : String := "FAKE_VIDEO_DATA_SEGMENT_"

/-- The `get_segment` handler (lines 201-230), parametrised by the current
condition name and the two random draws consumed by
`apply_network_effects`. `none` models a `KeyError` on the snapshot of an
invalid current condition. -/
def get_segment (segment_num : ℤ) (current : String) (r u : ℚ) :
    Option HttpResponse :=
  if segment_num < 1 ∨ segment_num > 5 then
    some ⟨400, "Invalid segment number. Must be 1-5."⟩
  else
    match NETWORK_CONDITIONS current with
    | none => none
    | some condition =>
      match apply_network_effects "segment" condition r u with
      | .fail status message => some ⟨status, message⟩
      | .pass _ => some ⟨200, get_fake_video_segment⟩

/-- Result of the `health_check` handler: either the propagated impairment
error or the success JSON (only the fields the claims mention). -/
inductive HealthResult
  | err (status : Nat) (message : String)
  | ok (viewers : ℤ) (network_condition : String)
deriving DecidableEq, Repr

/-- The `health_check` handler (lines 233-255), parametrised by the random
draws and the random viewer count. -/
def health_check (current : String) (r u : ℚ) (viewers : ℤ) :
    Option HealthResult :=
  match NETWORK_CONDITIONS current with
  | none => none
  | some condition =>
    match apply_network_effects "health" condition r u with
    | .fail status message => some (.err status message)
    | .pass _ => some (.ok viewers current)

/-- JSON body of the control-set handler's response: either the applied
name with its settings copy, or the 400 error with the valid-conditions
list. -/
inductive ControlBody
  | applied (name : String) (settings : Condition)
  | invalid (error : String) (valid_conditions : List String)
deriving DecidableEq, Repr

/-- The `set_network_condition` handler (lines 302-340): takes the
requested name and the current state, returns the new state, the HTTP
status and the response body. -/
def set_network_condition (condition : String) (current : String) :
    String × Nat × ControlBody :=
  match NETWORK_CONDITIONS condition with
  | none =>
    (current, 400, .invalid "Invalid network condition" NETWORK_CONDITION_KEYS)
  | some settings =>
    (condition, 200, .applied condition settings)

/-- JSON body of the control-get-current handler's response. -/
structure CurrentResponse where
  current_condition : String
  settings : Condition
deriving DecidableEq, Repr

/-- The `get_current_condition` handler (lines 343-363); `none` models the
`KeyError` were the stored name absent from the table. -/
def get_current_condition (current : String) :
    Option (Nat × CurrentResponse) :=
  (NETWORK_CONDITIONS current).map fun settings => (200, ⟨current, settings⟩)

/-- One incoming request, with the randomness its handler consumes made
explicit. -/
inductive Request
  | root
  | manifest (r u : ℚ)
  | segment (n : ℤ) (r u : ℚ)
  | health (r u : ℚ) (viewers : ℤ)
  | metrics (r u : ℚ)
  | control_set (name : String)
  | control_current
deriving Repr

/-- Effect of one handler invocation on the module-level
`current_condition`: only `set_network_condition` declares
`global current_condition` and assigns it (line 310, 325); every other
handler only reads the state. -/
def handler_step (s : String) : Request → String
  | .control_set name => (set_network_condition name s).1
  | _ => s

/-- The state after a sequence of handler invocations, starting from the
process-start value. -/
def run_requests (reqs : List Request) : String :=
  reqs.foldl handler_step initial_condition

end MockStreamServer

namespace StreamingValidator

open MockStreamServer

/-- `get_latency_expected` (streaming_validator.py lines 22-29): the
caller-side expectation table; `"offline"` maps to `None` explicitly and
any other absent key also yields `None` via `dict.get`. -/
def get_latency_expected (status : String) : Option ℚ :=
  if status = "normal" then some 50
  else if status = "poor" then some 200
  else none

/-- The comparison performed by `validate_streaming_performance` (lines
68-72): the reported `settings.latency_ms` is compared with
`get_latency_expected(status)`; in Python a number never equals `None`,
so an absent expectation makes the assertion false. -/
def latency_matches (status : String) (server_latency : ℚ) : Bool :=
  match get_latency_expected status with
  | none => false
  | some expected => server_latency == expected

end StreamingValidator

open MockStreamServer StreamingValidator

/-- Helper: one handler invocation preserves validity of the stored
condition name. -/
theorem handler_step_preserves_valid (s : String) (req : Request)
    (h : (NETWORK_CONDITIONS s).isSome) :
    (NETWORK_CONDITIONS (handler_step s req)).isSome := by
  cases req with
  | control_set name =>
    have hstep : handler_step s (Request.control_set name) =
        (set_network_condition name s).1 := rfl
    rw [hstep]
    unfold set_network_condition
    cases hN : NETWORK_CONDITIONS name with
    | none => exact h
    | some c => simp [hN]
  | root => exact h
  | manifest r u => exact h
  | segment n r u => exact h
  | health r u v => exact h
  | metrics r u => exact h
  | control_current => exact h

/-- Helper: folding any request list over `handler_step` preserves
validity of the stored condition name. -/
theorem foldl_handler_step_preserves_valid (reqs : List Request) :
    ∀ s : String, (NETWORK_CONDITIONS s).isSome →
      (NETWORK_CONDITIONS (reqs.foldl handler_step s)).isSome := by
  induction reqs with
  | nil => intro s h; simpa using h
  | cons req rest ih =>
    intro s h
    exact ih (handler_step s req) (handler_step_preserves_valid s req h)

/-- C1: for every valid condition name, the control-set handler returns
200 with the table's settings for that name, and a subsequent
control-get-current on the updated state echoes the same name with the
same settings. -/
theorem set_then_get_roundtrip (name s : String) (c : Condition)
    (h : NETWORK_CONDITIONS name = some c) :
    set_network_condition name s = (name, 200, ControlBody.applied name c) ∧
    get_current_condition (set_network_condition name s).1 =
      some (200, ⟨name, c⟩) := by
  constructor
  · unfold set_network_condition; rw [h]
  · unfold set_network_condition; rw [h]
    unfold get_current_condition; rw [h]; rfl

/-- Witness for C1: the concrete `poor` scenario with the exact settings
of the table. -/
theorem set_then_get_roundtrip_witness :
    NETWORK_CONDITIONS "poor" =
      some ⟨15/100, 200, 50, "Poor network (mobile 3G-like)"⟩ ∧
    (set_network_condition "poor" "normal" =
      ("poor", 200, ControlBody.applied "poor"
        ⟨15/100, 200, 50, "Poor network (mobile 3G-like)"⟩) ∧
    get_current_condition (set_network_condition "poor" "normal").1 =
      some (200, ⟨"poor", ⟨15/100, 200, 50, "Poor network (mobile 3G-like)"⟩⟩)) :=
  ⟨rfl, set_then_get_roundtrip "poor" "normal" _ rfl⟩

/-- C2: for every name absent from the condition table, the control-set
handler returns 400 with the list of valid conditions and leaves the
stored state exactly as it was; the subsequent get-current response is
unchanged. -/
theorem invalid_set_preserves_state (name s : String)
    (h : NETWORK_CONDITIONS name = none) :
    set_network_condition name s =
      (s, 400, ControlBody.invalid "Invalid network condition"
        NETWORK_CONDITION_KEYS) ∧
    get_current_condition (set_network_condition name s).1 =
      get_current_condition s := by
  unfold set_network_condition
  rw [h]
  exact ⟨rfl, rfl⟩

/-- Witness for C2: setting the unknown name `offline` from state
`normal`. -/
theorem invalid_set_preserves_state_witness :
    NETWORK_CONDITIONS "offline" = none ∧
    (set_network_condition "offline" "normal" =
      ("normal", 400, ControlBody.invalid "Invalid network condition"
        NETWORK_CONDITION_KEYS) ∧
    get_current_condition (set_network_condition "offline" "normal").1 =
      get_current_condition "normal") :=
  ⟨rfl, invalid_set_preserves_state "offline" "normal" rfl⟩

/-- C3: in the impairment simulator the failure branch is taken exactly
when the uniform draw `r` is strictly below the snapshot condition's
packet-loss probability; on failure the status is 504 Gateway Timeout for
the `manifest` category and 503 Service Unavailable for every other
category, and otherwise the simulator returns `pass`. -/
theorem impairment_failure_classification (et : String) (c : Condition)
    (r u : ℚ) :
    (r < c.packet_loss →
      apply_network_effects et c r u =
        (if et = "manifest" then NetOutcome.fail 504 "Gateway Timeout"
         else NetOutcome.fail 503 "Service Unavailable")) ∧
    (¬ r < c.packet_loss →
      apply_network_effects et c r u =
        NetOutcome.pass (max 0 (c.latency_ms / 1000 + u))) := by
  constructor <;> intro h <;> simp [apply_network_effects, h]

/-- Witness for C3: both branches at concrete draws, for the `poor`
condition (packet loss 0.15): `r = 1/10` fails a manifest request with
504, and `r = 1/2` passes a health request. -/
theorem impairment_failure_classification_witness :
    ((1 : ℚ)/10 < poorCondition.packet_loss ∧
      apply_network_effects "manifest" poorCondition (1/10) 0 =
        (if "manifest" = "manifest" then NetOutcome.fail 504 "Gateway Timeout"
         else NetOutcome.fail 503 "Service Unavailable")) ∧
    (¬ (1 : ℚ)/2 < poorCondition.packet_loss ∧
      apply_network_effects "health" poorCondition (1/2) 0 =
        NetOutcome.pass (max 0 (poorCondition.latency_ms / 1000 + 0))) :=
  ⟨⟨by norm_num [poorCondition],
    (impairment_failure_classification "manifest" poorCondition (1/10) 0).1
      (by norm_num [poorCondition])⟩,
   ⟨by norm_num [poorCondition],
    (impairment_failure_classification "health" poorCondition (1/2) 0).2
      (by norm_num [poorCondition])⟩⟩

/-- C4: when the simulator does not fail, the computed delay equals
`base_latency_ms/1000 + u` with the uniform jitter draw
`u ∈ [-jitter_ms/1000, jitter_ms/1000]`, clamped to be non-negative; the
delay is always ≥ 0 and at most `(base_latency_ms + jitter_ms)/1000`. -/
theorem delay_clamped_and_bounded (et : String) (c : Condition) (r u : ℚ)
    (hfail : ¬ r < c.packet_loss)
    (hu1 : -(c.jitter_ms / 1000) ≤ u) (hu2 : u ≤ c.jitter_ms / 1000)
    (hl : 0 ≤ c.latency_ms) :
    apply_network_effects et c r u =
      NetOutcome.pass (max 0 (c.latency_ms / 1000 + u)) ∧
    0 ≤ max 0 (c.latency_ms / 1000 + u) ∧
    max 0 (c.latency_ms / 1000 + u) ≤ (c.latency_ms + c.jitter_ms) / 1000 := by
  refine ⟨by simp [apply_network_effects, hfail], le_max_left _ _, ?_⟩
  have hsplit : (c.latency_ms + c.jitter_ms) / 1000 =
      c.latency_ms / 1000 + c.jitter_ms / 1000 := add_div _ _ _
  have hl1000 : 0 ≤ c.latency_ms / 1000 := by positivity
  apply max_le <;> rw [hsplit] <;> linarith

/-- Witness for C4: the `normal` condition with draws `r = 1/2`, `u = 0`. -/
theorem delay_clamped_and_bounded_witness :
    (¬ (1 : ℚ)/2 < normalCondition.packet_loss ∧
      -(normalCondition.jitter_ms / 1000) ≤ (0 : ℚ) ∧
      (0 : ℚ) ≤ normalCondition.jitter_ms / 1000 ∧
      (0 : ℚ) ≤ normalCondition.latency_ms) ∧
    (apply_network_effects "segment" normalCondition (1/2) 0 =
      NetOutcome.pass (max 0 (normalCondition.latency_ms / 1000 + 0)) ∧
    0 ≤ max 0 (normalCondition.latency_ms / 1000 + (0 : ℚ)) ∧
    max 0 (normalCondition.latency_ms / 1000 + (0 : ℚ)) ≤
      (normalCondition.latency_ms + normalCondition.jitter_ms) / 1000) :=
  ⟨⟨by norm_num [normalCondition], by norm_num [normalCondition],
    by norm_num [normalCondition], by norm_num [normalCondition]⟩,
   delay_clamped_and_bounded "segment" normalCondition (1/2) 0
    (by norm_num [normalCondition]) (by norm_num [normalCondition])
    (by norm_num [normalCondition]) (by norm_num [normalCondition])⟩

/-- C5: under the `normal` condition (packet loss 0.0) the failure branch
is unreachable: for every endpoint category and every draw `r ≥ 0` the
simulator passes, and in particular the health endpoint never answers
503/504. -/
theorem normal_condition_never_fails (et : String) (r u : ℚ) (viewers : ℤ)
    (hr : 0 ≤ r) :
    NETWORK_CONDITIONS "normal" = some normalCondition ∧
    normalCondition.packet_loss = 0 ∧
    apply_network_effects et normalCondition r u =
      NetOutcome.pass (max 0 (normalCondition.latency_ms / 1000 + u)) ∧
    health_check "normal" r u viewers =
      some (HealthResult.ok viewers "normal") := by
  have h : ¬ r < normalCondition.packet_loss := by
    simp only [normalCondition]
    exact not_lt.mpr hr
  refine ⟨rfl, rfl, by simp [apply_network_effects, h], ?_⟩
  simp [health_check, NETWORK_CONDITIONS, apply_network_effects, h]

/-- Witness for C5: the draw `r = 0` on a health request. -/
theorem normal_condition_never_fails_witness :
    (0 : ℚ) ≤ 0 ∧
    (NETWORK_CONDITIONS "normal" = some normalCondition ∧
    normalCondition.packet_loss = 0 ∧
    apply_network_effects "health" normalCondition 0 0 =
      NetOutcome.pass (max 0 (normalCondition.latency_ms / 1000 + 0)) ∧
    health_check "normal" 0 0 42 = some (HealthResult.ok 42 "normal")) :=
  ⟨le_refl 0, normal_condition_never_fails "health" 0 0 42 (le_refl 0)⟩

/-- C6: for every segment number outside [1,5] the segment handler
answers 400 with the fixed validation message, for every current
condition name (valid in the table or not) and every pair of random
draws: validation precedes the impairment simulation. -/
theorem invalid_segment_always_400 (n : ℤ) (current : String) (r u : ℚ)
    (h : n < 1 ∨ n > 5) :
    get_segment n current r u =
      some ⟨400, "Invalid segment number. Must be 1-5."⟩ := by
  unfold get_segment
  rw [if_pos h]

/-- Witness for C6: segment number 6 under the `terrible` condition. -/
theorem invalid_segment_always_400_witness :
    ((6 : ℤ) < 1 ∨ (6 : ℤ) > 5) ∧
    get_segment 6 "terrible" (1/2) 0 =
      some ⟨400, "Invalid segment number. Must be 1-5."⟩ :=
  ⟨by norm_num, invalid_segment_always_400 6 "terrible" (1/2) 0 (by norm_num)⟩

/-- C7: the control handlers are defined without any call to the
impairment simulator: for every requested name and every stored state the
control-set status is 200 or 400 (so never 503/504), and every response
of control-get-current carries status 200 (so never 503/504). -/
theorem control_endpoints_never_impaired (name s : String) :
    ((set_network_condition name s).2.1 = 200 ∨
      (set_network_condition name s).2.1 = 400) ∧
    (set_network_condition name s).2.1 ≠ 503 ∧
    (set_network_condition name s).2.1 ≠ 504 ∧
    (∀ st resp, get_current_condition s = some (st, resp) →
      st = 200 ∧ st ≠ 503 ∧ st ≠ 504) := by
  have hset : (set_network_condition name s).2.1 = 200 ∨
      (set_network_condition name s).2.1 = 400 := by
    unfold set_network_condition
    cases NETWORK_CONDITIONS name <;> simp
  refine ⟨hset, ?_, ?_, ?_⟩
  · rcases hset with h | h <;> omega
  · rcases hset with h | h <;> omega
  · intro st resp hresp
    unfold get_current_condition at hresp
    cases hN : NETWORK_CONDITIONS s <;> rw [hN] at hresp <;>
      simp at hresp
    omega

/-- Witness for C7: the current-condition response in state `poor`
carries status 200. -/
theorem control_endpoints_never_impaired_witness :
    get_current_condition "poor" =
      some (200, ⟨"poor", poorCondition⟩) ∧
    (200 = 200 ∧ 200 ≠ 503 ∧ 200 ≠ 504) :=
  ⟨rfl, (control_endpoints_never_impaired "poor" "poor").2.2.2 200
    ⟨"poor", poorCondition⟩ rfl⟩

/-- C8: the current condition name starts as `normal`, after any sequence
of handler invocations it is still a key of the condition table, the
non-control handlers never mutate it, and the control-set handler leaves
it unchanged on an invalid name. -/
theorem current_condition_invariant (reqs : List Request) :
    initial_condition = "normal" ∧
    (NETWORK_CONDITIONS (run_requests reqs)).isSome ∧
    (∀ s r u n v,
      handler_step s Request.root = s ∧
      handler_step s (Request.manifest r u) = s ∧
      handler_step s (Request.segment n r u) = s ∧
      handler_step s (Request.health r u v) = s ∧
      handler_step s (Request.metrics r u) = s ∧
      handler_step s Request.control_current = s) ∧
    (∀ s name, NETWORK_CONDITIONS name = none →
      handler_step s (Request.control_set name) = s) := by
  refine ⟨rfl, ?_, ?_, ?_⟩
  · exact foldl_handler_step_preserves_valid reqs initial_condition rfl
  · intro s r u n v
    exact ⟨rfl, rfl, rfl, rfl, rfl, rfl⟩
  · intro s name hN
    show (set_network_condition name s).1 = s
    unfold set_network_condition
    rw [hN]

/-- Witness for C8: an invalid set request for `offline` leaves the state
untouched. -/
theorem current_condition_invariant_witness :
    NETWORK_CONDITIONS "offline" = none ∧
    handler_step "normal" (Request.control_set "offline") = "normal" :=
  ⟨rfl, (current_condition_invariant []).2.2.2 "normal" "offline" rfl⟩

/-- C9: the validator's expectation table returns 50.0 ms for `normal`
while the server's table configures 10 ms for `normal`, so the latency
assertion of `validate_streaming_performance("normal")` compares 50
against a server reporting 10 and fails. -/
theorem validator_latency_mismatch :
    get_latency_expected "normal" = some 50 ∧
    (NETWORK_CONDITIONS "normal").map Condition.latency_ms = some 10 ∧
    (50 : ℚ) ≠ 10 ∧
    latency_matches "normal" 10 = false := by
  refine ⟨rfl, rfl, by norm_num, by decide⟩

/-- C10: for every valid segment number, whenever the impairment draw
passes, the segment handler returns status 200 with the one constant
placeholder payload, identical across segment numbers and conditions; the
payload is the 24-byte string `FAKE_VIDEO_DATA_SEGMENT_`. -/
theorem segment_payload_constant (n : ℤ) (current : String) (c : Condition)
    (r u : ℚ) (h1 : 1 ≤ n) (h2 : n ≤ 5)
    (hc : NETWORK_CONDITIONS current = some c)
    (hpass : ¬ r < c.packet_loss) :
    get_segment n current r u = some ⟨200, get_fake_video_segment⟩ ∧
    get_fake_video_segment = "FAKE_VIDEO_DATA_SEGMENT_" ∧
    get_fake_video_segment.length = 24 := by
  refine ⟨?_, rfl, rfl⟩
  unfold get_segment
  rw [if_neg (by omega)]
  rw [hc]
  simp [apply_network_effects, hpass]

/-- Witness for C10: segment 3 under the `poor` condition with a passing
draw. -/
theorem segment_payload_constant_witness :
    ((1 : ℤ) ≤ 3 ∧ (3 : ℤ) ≤ 5 ∧
      NETWORK_CONDITIONS "poor" = some poorCondition ∧
      ¬ (1 : ℚ)/2 < poorCondition.packet_loss) ∧
    (get_segment 3 "poor" (1/2) 0 = some ⟨200, get_fake_video_segment⟩ ∧
    get_fake_video_segment = "FAKE_VIDEO_DATA_SEGMENT_" ∧
    get_fake_video_segment.length = 24) :=
  ⟨⟨by norm_num, by norm_num, rfl, by norm_num [poorCondition]⟩,
   segment_payload_constant 3 "poor" poorCondition (1/2) 0
    (by norm_num) (by norm_num) rfl (by norm_num [poorCondition])⟩
